import Mathlib

/-!
Verification development for the eol-date repository: a shallow embedding of
its temporal value model (internal/api, EOLValue / LTSValue / Date) and of the
display pipeline (internal/ui/display.go), together with theorems settling the
behavioural claims about decoding, duration formatting, relative projection,
row preparation and rendering.
-/

/-- Wire-level JSON values as `encoding/json` hands them to a custom
UnmarshalJSON method: a boolean, a string, the literal null, a number, or any
other shape (object or array). -/
inductive JSONValue where
  | jbool (b : Bool)
  | jstr (s : String)
  | jnull
  | jnum (n : Int)
  | jother
deriving DecidableEq, Repr

/-- Go `time.Time` restricted to what this program uses: a UTC civil date plus
a nanosecond offset into the day.  The Go zero time is 0001-01-01 00:00:00 UTC. -/
structure GoTime where
  year : Int
  month : Int
  day : Int
  nsec : Int
deriving DecidableEq, Repr

/-- The Go zero `time.Time`: midnight UTC of January 1 of year 1. -/
def GoTime.zero : GoTime := ⟨1, 1, 1, 0⟩

/-- Nanoseconds in a 24-hour day. -/
def nsPerDay : Int := 86400000000000

/-- Days since 1970-01-01 of a proleptic-Gregorian civil date (the standard
days-from-civil computation; all inner divisions act on non-negative values,
so truncating division is exact, matching Go's internal date arithmetic). -/
def daysFromCivil (y m d : Int) : Int :=
  let yb := if m ≤ 2 then y - 1 else y
  let era := (if 0 ≤ yb then yb else yb - 399).tdiv 400
  let yoe := yb - era * 400
  let doy := (153 * (m + (if 2 < m then -3 else 9)) + 2).tdiv 5 + d - 1
  let doe := yoe * 365 + yoe.tdiv 4 - yoe.tdiv 100 + doy
  era * 146097 + doe - 719468

/-- Nanoseconds since the Go zero instant (0001-01-01T00:00:00 UTC); 719162 is
the day count from 0001-01-01 to 1970-01-01. -/
def GoTime.toNs (t : GoTime) : Int :=
  (daysFromCivil t.year t.month t.day + 719162) * nsPerDay + t.nsec

/-- Go `t.IsZero()`: whether `t` is the zero instant. -/
def GoTime.IsZero (t : GoTime) : Bool := t.toNs == 0

/-- Go `t.After(u)`: whether `t` is strictly after `u`. -/
def GoTime.After (t u : GoTime) : Bool := u.toNs < t.toNs

/-- Go `t.Sub(u)`: the duration from `u` to `t` in nanoseconds. -/
def GoTime.Sub (t u : GoTime) : Int := t.toNs - u.toNs

/-- Left-pad a decimal string with zeros to width `w` (Go's fixed-width
numeric formatting for in-range fields). -/
def padZero (w : Nat) (s : String) : String :=
  String.mk (List.replicate (w - s.length) '0' ++ s.data)

/-- Go `t.Format("2006-01-02")`: the ISO YYYY-MM-DD form of the date part. -/
def GoTime.formatISO (t : GoTime) : String :=
  padZero 4 (toString t.year) ++ "-" ++ padZero 2 (toString t.month) ++ "-" ++
    padZero 2 (toString t.day)

/-- Decimal digit test on a character. -/
def isDigitChar (c : Char) : Bool := '0' ≤ c && c ≤ '9'

/-- Numeric value of a decimal digit character. -/
def digitVal (c : Char) : Int := Int.ofNat (c.toNat - '0'.toNat)

/-- Go leap-year rule (`%` is Go's truncating modulus). -/
def isLeap (y : Int) : Bool :=
  y.tmod 4 == 0 && (!(y.tmod 100 == 0) || y.tmod 400 == 0)

/-- Days in a month, as Go's `daysIn` used by `time.Parse` range checking. -/
def daysIn (m y : Int) : Int :=
  if m == 2 then (if isLeap y then 29 else 28)
  else if m == 4 || m == 6 || m == 9 || m == 11 then 30
  else 31

/-- Go `time.Parse("2006-01-02", s)`: the layout demands exactly four year
digits, a dash, two month digits, a dash, two day digits, with nothing left
over; the month must be 1..12 and the day in range for that month.  On
success the result is midnight UTC of that date; the empty string and every
other malformed string fail. -/
def parseDate (s : String) : Option GoTime :=
  match s.data with
  | [y1, y2, y3, y4, c1, m1, m2, c2, d1, d2] =>
    if isDigitChar y1 && isDigitChar y2 && isDigitChar y3 && isDigitChar y4 &&
        c1 == '-' && isDigitChar m1 && isDigitChar m2 &&
        c2 == '-' && isDigitChar d1 && isDigitChar d2 then
      let year := digitVal y1 * 1000 + digitVal y2 * 100 + digitVal y3 * 10 + digitVal y4
      let month := digitVal m1 * 10 + digitVal m2
      let day := digitVal d1 * 10 + digitVal d2
      if 1 ≤ month && month ≤ 12 && 1 ≤ day && day ≤ daysIn month year then
        some ⟨year, month, day, 0⟩
      else none
    else none
  | _ => none

/-- `EOLValue` from internal/api: either a boolean or a date, with the same
field layout as the Go struct. -/
structure EOLValue where
  DateValue : GoTime
  IsBoolean : Bool
  BoolValue : Bool
deriving DecidableEq, Repr

/-- The Go zero value of `EOLValue` (a freshly decoded `Cycle` field starts
here): zero date, both booleans false. -/
def EOLValue.zero : EOLValue := ⟨GoTime.zero, false, false⟩

/-- Model of `EOLValue.UnmarshalJSON`.  `json.Unmarshal(data, &b)` into a
`bool` succeeds exactly on a JSON boolean or on null (unmarshalling null into
a non-pointer Go value is a no-op without error, leaving the fresh local `b`
at its zero value false); `json.Unmarshal(data, &s)` into a `string` then
succeeds exactly on a JSON string.  `e` is the receiver state before the
call.  Every path returns a nil error, modelled as `Except.ok`. -/
def EOLValue.UnmarshalJSON (e : EOLValue) (data : JSONValue) : Except String EOLValue :=
  match data with
  | .jbool b => .ok { e with IsBoolean := true, BoolValue := b }
  | .jnull => .ok { e with IsBoolean := true, BoolValue := false }
  | .jstr s =>
    match parseDate s with
    | none => .ok { e with BoolValue := true, IsBoolean := true }
    | some t => .ok { e with IsBoolean := false, DateValue := t }
  | .jnum _ => .ok e
  | .jother => .ok e

/-- `EOLValue.IsEOL`, with the wall-clock `time.Now()` injected as `now`:
a boolean variant returns its flag; otherwise EOL iff the date is non-zero
and now is strictly after it. -/
def EOLValue.IsEOL (e : EOLValue) (now : GoTime) : Bool :=
  if e.IsBoolean then e.BoolValue
  else !e.DateValue.IsZero && now.After e.DateValue

/-- `LTSValue` from internal/api: either a boolean or a date. -/
structure LTSValue where
  DateValue : GoTime
  IsBoolean : Bool
  BoolValue : Bool
deriving DecidableEq, Repr

/-- The Go zero value of `LTSValue`. -/
def LTSValue.zero : LTSValue := ⟨GoTime.zero, false, false⟩

/-- Model of `LTSValue.UnmarshalJSON`; identical to the EOL decode except
that an unparseable date string degrades to the boolean false variant. -/
def LTSValue.UnmarshalJSON (l : LTSValue) (data : JSONValue) : Except String LTSValue :=
  match data with
  | .jbool b => .ok { l with IsBoolean := true, BoolValue := b }
  | .jnull => .ok { l with IsBoolean := true, BoolValue := false }
  | .jstr s =>
    match parseDate s with
    | none => .ok { l with BoolValue := false, IsBoolean := true }
    | some t => .ok { l with IsBoolean := false, DateValue := t }
  | .jnum _ => .ok l
  | .jother => .ok l

/-- `LTSValue.IsLTS`: a boolean variant returns its flag; a date variant is
LTS iff the date is non-zero, whether past or future. -/
def LTSValue.IsLTS (l : LTSValue) : Bool :=
  if l.IsBoolean then l.BoolValue else !l.DateValue.IsZero

/-- `formatDuration` from display.go.  The Go duration is int64 nanoseconds;
`int(d.Hours() / 24)` is truncation toward zero, modelled as `Int.tdiv` by a
day of nanoseconds (exact in the integer model), and the month and year steps
are Go integer division and modulus, which truncate. -/
def formatDuration (d : Int) : String :=
  let days := d.tdiv nsPerDay
  let months := days.tdiv 30
  let years := months.tdiv 12
  if 0 < years then
    let remainingMonths := months.tmod 12
    if 0 < remainingMonths then
      toString years ++ "y " ++ toString remainingMonths ++ "m"
    else
      toString years ++ "y"
  else if 0 < months then toString months ++ "m"
  else if 0 < days then toString days ++ "d"
  else "<1d"

/-- `relativeDate` from display.go: the relative label and the absolute date
string of one temporal cell. -/
structure relativeDate where
  relative : String
  date : String
deriving DecidableEq, Repr

/-- `formatRelease`, with `time.Now()` injected as `now`; `time.Since(t)` is
`now - t`. -/
def formatRelease (now : GoTime) (t : GoTime) : relativeDate :=
  if t.IsZero then ⟨"", ""⟩
  else ⟨formatDuration (now.Sub t) ++ " ago", t.formatISO⟩

/-- `formatSupport`, with `time.Now()` injected as `now`. -/
def formatSupport (now : GoTime) (support : EOLValue) : relativeDate :=
  if support.IsBoolean then
    if support.BoolValue then ⟨"Active", ""⟩ else ⟨"-", ""⟩
  else if support.DateValue.IsZero then ⟨"", ""⟩
  else
    let diff := support.DateValue.Sub now
    if 0 < diff then ⟨"in " ++ formatDuration diff, support.DateValue.formatISO⟩
    else ⟨formatDuration (-diff) ++ " ago", support.DateValue.formatISO⟩

/-- `formatEOL`, with `time.Now()` injected as `now`. -/
def formatEOL (now : GoTime) (eol : EOLValue) : relativeDate :=
  if eol.IsBoolean then
    if eol.BoolValue then ⟨"Ended", ""⟩ else ⟨"Active", ""⟩
  else if eol.DateValue.IsZero then ⟨"", ""⟩
  else
    let diff := eol.DateValue.Sub now
    if 0 < diff then ⟨"in " ++ formatDuration diff, eol.DateValue.formatISO⟩
    else ⟨formatDuration (-diff) ++ " ago", eol.DateValue.formatISO⟩

/-- `formatRawValue` from display.go: the machine-readable form of an
`EOLValue` for CSV, Markdown and HTML output. -/
def formatRawValue (v : EOLValue) : String :=
  if v.IsBoolean then (if v.BoolValue then "true" else "false")
  else if v.DateValue.IsZero then ""
  else v.DateValue.formatISO

/-- `Cycle` from internal/api (fields the display pipeline reads). -/
structure api.Cycle where
  ReleaseDate : GoTime
  LatestReleaseDate : GoTime
  EOL : EOLValue
  Support : EOLValue
  LTS : LTSValue
  Cycle : String
  Latest : String
deriving DecidableEq, Repr

/-- `displayRow` from display.go. -/
structure displayRow where
  Cycle : String
  Latest : String
  ReleasedRel : String
  ReleasedRaw : String
  SupportRel : String
  SupportRaw : String
  EOLRel : String
  EOLRaw : String
  LTS : Bool
  IsEOL : Bool
deriving DecidableEq, Repr

/-- The row-construction body of the `prepareDisplayRows` loop. -/
def mkDisplayRow (now : GoTime) (c : api.Cycle) : displayRow :=
  let release := formatRelease now c.ReleaseDate
  let support := formatSupport now c.Support
  let eol := formatEOL now c.EOL
  { Cycle := c.Cycle
    Latest := c.Latest
    ReleasedRel := release.relative
    ReleasedRaw := release.date
    SupportRel := support.relative
    SupportRaw := formatRawValue c.Support
    EOLRel := eol.relative
    EOLRaw := formatRawValue c.EOL
    LTS := c.LTS.IsLTS
    IsEOL := c.EOL.IsEOL now }

/-- `prepareDisplayRows` from display.go, with `time.Now()` injected as
`now`: skip a cycle when not showing all and its EOL predicate holds,
otherwise emit its row; input order is kept. -/
def prepareDisplayRows (now : GoTime) (cycles : List api.Cycle) (showAll : Bool) :
    List displayRow :=
  match cycles with
  | [] => []
  | c :: rest =>
    if !showAll && c.EOL.IsEOL now then prepareDisplayRows now rest showAll
    else mkDisplayRow now c :: prepareDisplayRows now rest showAll

/-- `formatMarkdownDate` from display.go: the Markdown cell combiner. -/
def formatMarkdownDate (rel raw : String) : String :=
  if rel == "" && raw == "" then ""
  else if raw == "" || raw == "true" || raw == "false" then rel
  else if rel == "" then raw
  else rel ++ " (" ++ raw ++ ")"

/-- `formatHTMLDate` from display.go: the HTML cell combiner. -/
def formatHTMLDate (rel raw : String) : String :=
  if rel == "" && raw == "" then ""
  else if raw == "" || raw == "true" || raw == "false" then rel
  else if rel == "" then raw
  else rel ++ " (" ++ raw ++ ")"

/-- The padding computed inside `combinedCell`: `max(1, width-relLen-dateLen)`
on Go ints. -/
def cellPadding (width relLen dateLen : Nat) : Int :=
  max 1 ((width : Int) - (relLen : Int) - (dateLen : Int))

/-- `combinedCell` from display.go with the lipgloss colour styling elided:
the source computes the padding from the unstyled rune-free lengths, and the
ANSI colour codes wrapping the two parts do not change the cell's text. -/
def combinedCell (rel : relativeDate) (width : Nat) : String :=
  if rel.relative == "" && rel.date == "" then ""
  else
    let padding := cellPadding width rel.relative.length rel.date.length
    if rel.date == "" then rel.relative
    else rel.relative ++ String.mk (List.replicate padding.toNat ' ') ++ rel.date

/-- One step of the column-width loop in `formatAsTable` (lines computing
releasedWidth, supportWidth and eolWidth): RELEASED always contributes
relative + gap + raw; SUPPORT and EOL contribute that only when the relative
part is non-empty and the raw part is a real date (non-empty, not a boolean
string), and otherwise contribute just the relative part's length. -/
def tableWidthStep (acc : Nat × Nat × Nat) (r : displayRow) : Nat × Nat × Nat :=
  let releasedWidth := max acc.1 (r.ReleasedRel.length + 1 + r.ReleasedRaw.length)
  let supportWidth :=
    if r.SupportRel != "" && r.SupportRaw != "" && r.SupportRaw != "true" &&
        r.SupportRaw != "false" then
      max acc.2.1 (r.SupportRel.length + 1 + r.SupportRaw.length)
    else max acc.2.1 r.SupportRel.length
  let eolWidth :=
    if r.EOLRel != "" && r.EOLRaw != "" && r.EOLRaw != "true" &&
        r.EOLRaw != "false" then
      max acc.2.2 (r.EOLRel.length + 1 + r.EOLRaw.length)
    else max acc.2.2 r.EOLRel.length
  (releasedWidth, supportWidth, eolWidth)

/-- The column widths (RELEASED, SUPPORT, EOL) computed by `formatAsTable`
over the display rows, starting from zero. -/
def tableWidths (rows : List displayRow) : Nat × Nat × Nat :=
  rows.foldl tableWidthStep (0, 0, 0)

/-- Maximum of a per-row length function over the rows, starting from zero;
used to state the claimed closed forms of the column widths. -/
def maxOverRows (f : displayRow → Nat) (rows : List displayRow) : Nat :=
  rows.foldl (fun a r => max a (f r)) 0

/-- A fixed sample evaluation instant: 2025-06-15 00:00:00 UTC. -/
def nowSample : GoTime := ⟨2025, 6, 15, 0⟩

/-- A date-variant `EOLValue` holding the zero date (the unknown state). -/
def zeroDateEOLValue : EOLValue := ⟨GoTime.zero, false, false⟩

/-- A cycle whose EOL date (2030-01-01) lies after `nowSample`. -/
def cycleEOLFuture : api.Cycle :=
  { ReleaseDate := ⟨2024, 10, 7, 0⟩
    LatestReleaseDate := ⟨2025, 1, 14, 0⟩
    EOL := ⟨⟨2030, 1, 1, 0⟩, false, false⟩
    Support := ⟨⟨2026, 10, 1, 0⟩, false, false⟩
    LTS := ⟨GoTime.zero, true, false⟩
    Cycle := "3.13"
    Latest := "3.13.11" }

/-- A cycle whose EOL date (2020-01-01) lies before `nowSample`. -/
def cycleEOLPast : api.Cycle :=
  { ReleaseDate := ⟨2018, 6, 27, 0⟩
    LatestReleaseDate := ⟨2020, 3, 10, 0⟩
    EOL := ⟨⟨2020, 1, 1, 0⟩, false, false⟩
    Support := ⟨⟨2019, 6, 27, 0⟩, false, false⟩
    LTS := ⟨GoTime.zero, true, false⟩
    Cycle := "3.7"
    Latest := "3.7.17" }

/-- A display row whose SUPPORT field is a boolean variant (raw "true"). -/
def flagSupportRow : displayRow :=
  { Cycle := "1.0"
    Latest := "1.0.0"
    ReleasedRel := "1y ago"
    ReleasedRaw := "2024-06-15"
    SupportRel := "Active"
    SupportRaw := "true"
    EOLRel := "Active"
    EOLRaw := "false"
    LTS := false
    IsEOL := false }

/-- Per-row contribution to the RELEASED column width in `formatAsTable`. -/
def releasedWidthOf (r : displayRow) : Nat :=
  r.ReleasedRel.length + 1 + r.ReleasedRaw.length

/-- Per-row contribution to the SUPPORT column width in `formatAsTable`:
relative + gap + raw when the relative part is non-empty and the raw part is
a real date, else just the relative part. -/
def supportWidthOf (r : displayRow) : Nat :=
  if r.SupportRel != "" && r.SupportRaw != "" && r.SupportRaw != "true" &&
      r.SupportRaw != "false" then
    r.SupportRel.length + 1 + r.SupportRaw.length
  else r.SupportRel.length

/-- Per-row contribution to the EOL column width in `formatAsTable`. -/
def eolWidthOf (r : displayRow) : Nat :=
  if r.EOLRel != "" && r.EOLRaw != "" && r.EOLRaw != "true" &&
      r.EOLRaw != "false" then
    r.EOLRel.length + 1 + r.EOLRaw.length
  else r.EOLRel.length

lemma eol_unmarshal_ok (e : EOLValue) (v : JSONValue) :
    ∃ r, EOLValue.UnmarshalJSON e v = Except.ok r := by
  cases v with
  | jbool b => exact ⟨_, rfl⟩
  | jstr s =>
    cases h : parseDate s with
    | none =>
      exact ⟨{ e with BoolValue := true, IsBoolean := true },
        by simp [EOLValue.UnmarshalJSON, h]⟩
    | some t =>
      exact ⟨{ e with IsBoolean := false, DateValue := t },
        by simp [EOLValue.UnmarshalJSON, h]⟩
  | jnull => exact ⟨_, rfl⟩
  | jnum n => exact ⟨_, rfl⟩
  | jother => exact ⟨_, rfl⟩

lemma lts_unmarshal_ok (l : LTSValue) (v : JSONValue) :
    ∃ r, LTSValue.UnmarshalJSON l v = Except.ok r := by
  cases v with
  | jbool b => exact ⟨_, rfl⟩
  | jstr s =>
    cases h : parseDate s with
    | none =>
      exact ⟨{ l with BoolValue := false, IsBoolean := true },
        by simp [LTSValue.UnmarshalJSON, h]⟩
    | some t =>
      exact ⟨{ l with IsBoolean := false, DateValue := t },
        by simp [LTSValue.UnmarshalJSON, h]⟩
  | jnull => exact ⟨_, rfl⟩
  | jnum n => exact ⟨_, rfl⟩
  | jother => exact ⟨_, rfl⟩

/-- C1: the value decode is total and degrades asymmetrically: every wire
value (boolean, valid date string, invalid non-empty string, empty string)
decodes without error for both `EOLValue` and `LTSValue`, and a non-empty
string that does not parse as a YYYY-MM-DD date yields the boolean variant
with value true for EOL and Support but value false for LTS. -/
theorem decode_total_and_degrade (e : EOLValue) (l : LTSValue) (v : JSONValue)
    (s : String) :
    (∃ r, EOLValue.UnmarshalJSON e v = Except.ok r) ∧
    (∃ r, LTSValue.UnmarshalJSON l v = Except.ok r) ∧
    (s ≠ "" → parseDate s = none →
      EOLValue.UnmarshalJSON e (.jstr s) =
        Except.ok { e with IsBoolean := true, BoolValue := true } ∧
      LTSValue.UnmarshalJSON l (.jstr s) =
        Except.ok { l with IsBoolean := true, BoolValue := false }) := by
  refine ⟨eol_unmarshal_ok e v, lts_unmarshal_ok l v, fun hne hp => ⟨?_, ?_⟩⟩
  · simp [EOLValue.UnmarshalJSON, hp]
  · simp [LTSValue.UnmarshalJSON, hp]

/-- C1 witness: the degrade clause evaluated at the invalid date string
"invalid" from the repository's own test table. -/
theorem decode_total_and_degrade_witness :
    EOLValue.UnmarshalJSON EOLValue.zero (.jstr "invalid") =
      Except.ok { EOLValue.zero with IsBoolean := true, BoolValue := true } ∧
    LTSValue.UnmarshalJSON LTSValue.zero (.jstr "invalid") =
      Except.ok { LTSValue.zero with IsBoolean := true, BoolValue := false } :=
  (decode_total_and_degrade EOLValue.zero LTSValue.zero JSONValue.jnull
    "invalid").2.2 (by decide) rfl

/-- C2 counterexample: on the empty wire string the EOL decode produces the
boolean-true variant and the LTS decode the boolean-false variant, not the
claimed unknown state with IsBoolean false. -/
theorem empty_string_not_unknown :
    EOLValue.UnmarshalJSON EOLValue.zero (.jstr "") =
      Except.ok ⟨GoTime.zero, true, true⟩ ∧
    LTSValue.UnmarshalJSON LTSValue.zero (.jstr "") =
      Except.ok ⟨GoTime.zero, true, false⟩ ∧
    (EOLValue.UnmarshalJSON EOLValue.zero (.jstr "")).toOption.map
        EOLValue.IsBoolean ≠ some false := by
  refine ⟨rfl, rfl, by decide⟩

/-- C2 amended: the empty string is handled by the unparseable-date path, so
it decodes to the boolean-true variant for EOL and Support and to the
boolean-false variant for LTS; only the plain `Date` field type maps the
empty string to the zero date. -/
theorem empty_string_decode (e : EOLValue) (l : LTSValue) :
    EOLValue.UnmarshalJSON e (.jstr "") =
      Except.ok { e with IsBoolean := true, BoolValue := true } ∧
    LTSValue.UnmarshalJSON l (.jstr "") =
      Except.ok { l with IsBoolean := true, BoolValue := false } :=
  ⟨rfl, rfl⟩

/-- C10 counterexample: the JSON literal null is absorbed by the boolean
branch (unmarshalling null into a Go bool is a silent no-op), so both decodes
set the boolean variant with value false rather than leaving the unknown
state. -/
theorem null_not_unknown :
    EOLValue.UnmarshalJSON EOLValue.zero JSONValue.jnull =
      Except.ok ⟨GoTime.zero, true, false⟩ ∧
    LTSValue.UnmarshalJSON LTSValue.zero JSONValue.jnull =
      Except.ok ⟨GoTime.zero, true, false⟩ ∧
    (EOLValue.UnmarshalJSON EOLValue.zero JSONValue.jnull).toOption.map
        EOLValue.IsBoolean ≠ some false := by
  refine ⟨rfl, rfl, by decide⟩

/-- C10 amended: a wire value that is neither a boolean, nor a string, nor
null (a number, object or array) decodes without error and leaves the
receiver unchanged — the zero-value unknown state when decoding a fresh
field; the JSON null instead decodes to the boolean variant with value
false. -/
theorem non_bool_non_string_decode (e : EOLValue) (l : LTSValue) (n : Int) :
    EOLValue.UnmarshalJSON e (.jnum n) = Except.ok e ∧
    EOLValue.UnmarshalJSON e .jother = Except.ok e ∧
    LTSValue.UnmarshalJSON l (.jnum n) = Except.ok l ∧
    LTSValue.UnmarshalJSON l .jother = Except.ok l ∧
    EOLValue.UnmarshalJSON EOLValue.zero JSONValue.jnull =
      Except.ok { EOLValue.zero with IsBoolean := true, BoolValue := false } ∧
    LTSValue.UnmarshalJSON LTSValue.zero JSONValue.jnull =
      Except.ok { LTSValue.zero with IsBoolean := true, BoolValue := false } :=
  ⟨rfl, rfl, rfl, rfl, rfl, rfl⟩

/-- C4 counterexample: for a date variant holding the zero date, `IsEOL` at
the sample instant returns false although the instant is strictly after the
zero date, so "IsEOL of a date variant returns whether now is strictly after
the date" fails as stated. -/
theorem isEOL_zero_date_not_after :
    zeroDateEOLValue.IsBoolean = false ∧
    GoTime.After nowSample zeroDateEOLValue.DateValue = true ∧
    zeroDateEOLValue.IsEOL nowSample = false := by
  refine ⟨rfl, by decide, by decide⟩

/-- C4 amended: at a fixed now, `IsEOL` of a boolean variant returns the
stored flag, and of a date variant returns whether the date is non-zero and
now is strictly after it; `IsLTS` of a boolean variant returns the stored
flag, and of a date variant returns whether the date is non-zero, regardless
of whether that date is past or future. -/
theorem isEOL_isLTS_semantics (now : GoTime) (e : EOLValue) (l : LTSValue) :
    (e.IsBoolean = true → e.IsEOL now = e.BoolValue) ∧
    (e.IsBoolean = false →
      e.IsEOL now = (!e.DateValue.IsZero && now.After e.DateValue)) ∧
    (l.IsBoolean = true → l.IsLTS = l.BoolValue) ∧
    (l.IsBoolean = false → l.IsLTS = !l.DateValue.IsZero) := by
  refine ⟨?_, ?_, ?_, ?_⟩ <;> intro h <;>
    simp [EOLValue.IsEOL, LTSValue.IsLTS, h]

/-- C4 amended witness: a boolean-true EOL variant is EOL at the sample
instant, and a date-variant LTS value with a non-zero date counts as LTS. -/
theorem isEOL_isLTS_semantics_witness :
    EOLValue.IsEOL ⟨GoTime.zero, true, true⟩ nowSample = true ∧
    LTSValue.IsLTS ⟨⟨2032, 4, 30, 0⟩, false, false⟩ =
      !GoTime.IsZero ⟨2032, 4, 30, 0⟩ :=
  ⟨(isEOL_isLTS_semantics nowSample ⟨GoTime.zero, true, true⟩
      LTSValue.zero).1 rfl,
   (isEOL_isLTS_semantics nowSample EOLValue.zero
      ⟨⟨2032, 4, 30, 0⟩, false, false⟩).2.2.2 rfl⟩

/-- C8: the Markdown and HTML cell combiners are the same function, and on
each (relative, raw) pair they return the empty string when both parts are
empty, the relative label alone when the raw part is empty or a boolean
string, the raw part alone when only the relative label is empty, and
"relative (raw)" otherwise. -/
theorem markdown_html_combiner_agree (rel raw : String) :
    formatMarkdownDate rel raw = formatHTMLDate rel raw ∧
    (rel = "" → raw = "" → formatMarkdownDate rel raw = "") ∧
    (raw = "" ∨ raw = "true" ∨ raw = "false" →
      formatMarkdownDate rel raw = rel) ∧
    (rel = "" → raw ≠ "" → raw ≠ "true" → raw ≠ "false" →
      formatMarkdownDate rel raw = raw) ∧
    (rel ≠ "" → raw ≠ "" → raw ≠ "true" → raw ≠ "false" →
      formatMarkdownDate rel raw = rel ++ " (" ++ raw ++ ")") := by
  refine ⟨rfl, ?_, ?_, ?_, ?_⟩
  · intro h1 h2
    simp [formatMarkdownDate, h1, h2]
  · rintro (h | h | h) <;> subst h <;> by_cases hrel : rel = "" <;>
      simp [formatMarkdownDate, hrel]
  · intro h1 h2 h3 h4
    simp [formatMarkdownDate, h1, h2, h3, h4]
  · intro h1 h2 h3 h4
    simp [formatMarkdownDate, h1, h2, h3, h4]

/-- C8 witness: an active flag cell renders only "Active", and a dated cell
renders the relative label with the date in parentheses. -/
theorem markdown_html_combiner_agree_witness :
    formatMarkdownDate "Active" "true" = "Active" ∧
    formatMarkdownDate "3m ago" "2025-10-07" =
      "3m ago" ++ " (" ++ "2025-10-07" ++ ")" :=
  ⟨(markdown_html_combiner_agree "Active" "true").2.2.1 (by simp),
   (markdown_html_combiner_agree "3m ago" "2025-10-07").2.2.2.2
     (by decide) (by decide) (by decide) (by decide)⟩

lemma prepare_false_eq (now : GoTime) (cycles : List api.Cycle) :
    prepareDisplayRows now cycles false =
      (cycles.filter (fun c => !(c.EOL.IsEOL now))).map (mkDisplayRow now) := by
  induction cycles with
  | nil => rfl
  | cons c rest ih =>
    cases h : c.EOL.IsEOL now <;>
      simp [prepareDisplayRows, List.filter_cons, h, ih]

lemma prepare_true_eq (now : GoTime) (cycles : List api.Cycle) :
    prepareDisplayRows now cycles true = cycles.map (mkDisplayRow now) := by
  induction cycles with
  | nil => rfl
  | cons c rest ih => simp [prepareDisplayRows, ih]

/-- C6: with showAll false the row preparer yields exactly the rows of the
cycles whose IsEOL predicate is false, in input order; with showAll true it
yields one row per cycle of the whole list in input order; in particular for
a future-EOL cycle followed by a past-EOL cycle, showAll false keeps exactly
the first and showAll true keeps both. -/
theorem prepareDisplayRows_filter_order (now : GoTime) (cycles : List api.Cycle) :
    prepareDisplayRows now cycles false =
      (cycles.filter (fun c => !(c.EOL.IsEOL now))).map (mkDisplayRow now) ∧
    prepareDisplayRows now cycles true = cycles.map (mkDisplayRow now) ∧
    prepareDisplayRows nowSample [cycleEOLFuture, cycleEOLPast] false =
      [mkDisplayRow nowSample cycleEOLFuture] ∧
    prepareDisplayRows nowSample [cycleEOLFuture, cycleEOLPast] true =
      [mkDisplayRow nowSample cycleEOLFuture, mkDisplayRow nowSample cycleEOLPast] := by
  refine ⟨prepare_false_eq now cycles, prepare_true_eq now cycles, ?_, ?_⟩
  · rw [prepare_false_eq]
    have h1 : cycleEOLFuture.EOL.IsEOL nowSample = false := by decide
    have h2 : cycleEOLPast.EOL.IsEOL nowSample = true := by decide
    simp [List.filter_cons, h1, h2]
  · rw [prepare_true_eq]
    rfl

lemma padZero_length (w : Nat) (s : String) :
    (padZero w s).length = max w s.length := by
  show (List.replicate (w - s.length) '0' ++ s.data).length = max w s.length
  rw [List.length_append, List.length_replicate]
  have h : s.data.length = s.length := rfl
  omega

lemma formatISO_length_ge (t : GoTime) : 10 ≤ t.formatISO.length := by
  have hd : ("-" : String).length = 1 := rfl
  simp [GoTime.formatISO, String.length_append, padZero_length, hd]
  omega

/-- C7: the raw machine-readable field of an EOL or Support value is exactly
"true" or "false" for a boolean variant (matching the stored flag), and for a
date variant it is the ISO date string (empty for the zero date) and is never
one of the boolean strings. -/
theorem formatRawValue_shape (v : EOLValue) :
    (v.IsBoolean = true → formatRawValue v = "true" ∨ formatRawValue v = "false") ∧
    (v.IsBoolean = true → (formatRawValue v = "true" ↔ v.BoolValue = true)) ∧
    (v.IsBoolean = false → v.DateValue.IsZero = true → formatRawValue v = "") ∧
    (v.IsBoolean = false → v.DateValue.IsZero = false →
      formatRawValue v = v.DateValue.formatISO ∧
      formatRawValue v ≠ "true" ∧ formatRawValue v ≠ "false") := by
  refine ⟨?_, ?_, ?_, ?_⟩
  · intro h
    cases hb : v.BoolValue <;> simp [formatRawValue, h, hb]
  · intro h
    cases hb : v.BoolValue <;> simp [formatRawValue, h, hb]
  · intro h hz
    simp [formatRawValue, h, hz]
  · intro h hz
    have heq : formatRawValue v = v.DateValue.formatISO := by
      simp [formatRawValue, h, hz]
    refine ⟨heq, ?_, ?_⟩
    · intro hc
      have hlen := formatISO_length_ge v.DateValue
      rw [← heq, hc] at hlen
      have h4 : ("true" : String).length = 4 := rfl
      omega
    · intro hc
      have hlen := formatISO_length_ge v.DateValue
      rw [← heq, hc] at hlen
      have h5 : ("false" : String).length = 5 := rfl
      omega

/-- C7 witness: a boolean-true variant renders as a boolean string, and a
date variant holding 2025-10-07 renders as the ISO date, which is neither
"true" nor "false". -/
theorem formatRawValue_shape_witness :
    (formatRawValue ⟨GoTime.zero, true, true⟩ = "true" ∨
      formatRawValue ⟨GoTime.zero, true, true⟩ = "false") ∧
    (formatRawValue ⟨⟨2025, 10, 7, 0⟩, false, false⟩ =
        GoTime.formatISO ⟨2025, 10, 7, 0⟩ ∧
      formatRawValue ⟨⟨2025, 10, 7, 0⟩, false, false⟩ ≠ "true" ∧
      formatRawValue ⟨⟨2025, 10, 7, 0⟩, false, false⟩ ≠ "false") :=
  ⟨(formatRawValue_shape ⟨GoTime.zero, true, true⟩).1 rfl,
   (formatRawValue_shape ⟨⟨2025, 10, 7, 0⟩, false, false⟩).2.2.2 rfl (by decide)⟩

/-- C5: the relative projection at a fixed now maps a boolean Support
variant to "Active" (true) or "-" (false) and a boolean EOL variant to
"Ended" (true) or "Active" (false), all with empty absolute part; a
date variant with the zero date to empty label and empty absolute; a
date variant with a non-zero date to "in {duration}" when the date is in
the future, else "{duration} ago", with the ISO date as absolute; and a
release date to "{duration} ago" with its ISO form, or empty/empty when
zero. -/
theorem relative_projection (now : GoTime) (v : EOLValue) (t : GoTime) :
    (v.IsBoolean = true → v.BoolValue = true →
      formatSupport now v = ⟨"Active", ""⟩ ∧ formatEOL now v = ⟨"Ended", ""⟩) ∧
    (v.IsBoolean = true → v.BoolValue = false →
      formatSupport now v = ⟨"-", ""⟩ ∧ formatEOL now v = ⟨"Active", ""⟩) ∧
    (v.IsBoolean = false → v.DateValue.IsZero = true →
      formatSupport now v = ⟨"", ""⟩ ∧ formatEOL now v = ⟨"", ""⟩) ∧
    (v.IsBoolean = false → v.DateValue.IsZero = false →
      0 < v.DateValue.Sub now →
      formatSupport now v =
        ⟨"in " ++ formatDuration (v.DateValue.Sub now), v.DateValue.formatISO⟩ ∧
      formatEOL now v =
        ⟨"in " ++ formatDuration (v.DateValue.Sub now), v.DateValue.formatISO⟩) ∧
    (v.IsBoolean = false → v.DateValue.IsZero = false →
      v.DateValue.Sub now ≤ 0 →
      formatSupport now v =
        ⟨formatDuration (-(v.DateValue.Sub now)) ++ " ago", v.DateValue.formatISO⟩ ∧
      formatEOL now v =
        ⟨formatDuration (-(v.DateValue.Sub now)) ++ " ago", v.DateValue.formatISO⟩) ∧
    (t.IsZero = true → formatRelease now t = ⟨"", ""⟩) ∧
    (t.IsZero = false →
      formatRelease now t = ⟨formatDuration (now.Sub t) ++ " ago", t.formatISO⟩) := by
  refine ⟨?_, ?_, ?_, ?_, ?_, ?_, ?_⟩
  · intro h hb
    constructor <;> simp [formatSupport, formatEOL, h, hb]
  · intro h hb
    constructor <;> simp [formatSupport, formatEOL, h, hb]
  · intro h hz
    constructor <;> simp [formatSupport, formatEOL, h, hz]
  · intro h hz hdiff
    constructor <;> simp [formatSupport, formatEOL, h, hz, hdiff]
  · intro h hz hdiff
    have hnot : ¬(0 < v.DateValue.Sub now) := by omega
    constructor <;> simp [formatSupport, formatEOL, h, hz, hnot]
  · intro hz
    simp [formatRelease, hz]
  · intro hz
    simp [formatRelease, hz]

/-- C5 witness: a boolean-true Support value projects to "Active" with empty
absolute, and a release date of 2024-10-07 viewed from the sample instant
projects to a "… ago" label with its ISO form. -/
theorem relative_projection_witness :
    formatSupport nowSample ⟨GoTime.zero, true, true⟩ = ⟨"Active", ""⟩ ∧
    formatRelease nowSample ⟨2024, 10, 7, 0⟩ =
      ⟨formatDuration (GoTime.Sub nowSample ⟨2024, 10, 7, 0⟩) ++ " ago",
        GoTime.formatISO ⟨2024, 10, 7, 0⟩⟩ :=
  ⟨((relative_projection nowSample ⟨GoTime.zero, true, true⟩ GoTime.zero).1
      rfl rfl).1,
   (relative_projection nowSample EOLValue.zero ⟨2024, 10, 7, 0⟩).2.2.2.2.2.2
     (by decide)⟩

/-- C3: for non-negative durations the formatter returns "<1d" under one
day; "{days}d" for 1 ≤ days < 30 with days the floor in 24-hour days;
"{months}m" for months = days/30 in [1,12); and for months ≥ 12 with
years = months/12, "{years}y {months mod 12}m" when the remainder is
positive, else "{years}y"; in particular 730 days give "2y", 800 days
"2y 2m", 365 days "1y", 30 days "1m" and 24 hours "1d". -/
theorem formatDuration_spec (d : Int) (h : 0 ≤ d) :
    (d < nsPerDay → formatDuration d = "<1d") ∧
    (1 ≤ d / nsPerDay → d / nsPerDay < 30 →
      formatDuration d = toString (d / nsPerDay) ++ "d") ∧
    (1 ≤ d / nsPerDay / 30 → d / nsPerDay / 30 < 12 →
      formatDuration d = toString (d / nsPerDay / 30) ++ "m") ∧
    (12 ≤ d / nsPerDay / 30 → 0 < d / nsPerDay / 30 % 12 →
      formatDuration d = toString (d / nsPerDay / 30 / 12) ++ "y " ++
        toString (d / nsPerDay / 30 % 12) ++ "m") ∧
    (12 ≤ d / nsPerDay / 30 → d / nsPerDay / 30 % 12 = 0 →
      formatDuration d = toString (d / nsPerDay / 30 / 12) ++ "y") ∧
    formatDuration (730 * nsPerDay) = "2y" ∧
    formatDuration (800 * nsPerDay) = "2y 2m" ∧
    formatDuration (365 * nsPerDay) = "1y" ∧
    formatDuration (30 * nsPerDay) = "1m" ∧
    formatDuration (24 * 3600 * 1000000000) = "1d" := by
  have hns : (0 : Int) ≤ nsPerDay := by norm_num [nsPerDay]
  have hdays0 : 0 ≤ d / nsPerDay := Int.ediv_nonneg h hns
  have hmonths0 : 0 ≤ d / nsPerDay / 30 := Int.ediv_nonneg hdays0 (by norm_num)
  have e1 : d.tdiv nsPerDay = d / nsPerDay := Int.tdiv_eq_ediv h hns
  have e2 : (d / nsPerDay).tdiv 30 = d / nsPerDay / 30 :=
    Int.tdiv_eq_ediv hdays0 (by norm_num)
  have e3 : (d / nsPerDay / 30).tdiv 12 = d / nsPerDay / 30 / 12 :=
    Int.tdiv_eq_ediv hmonths0 (by norm_num)
  have e4 : (d / nsPerDay / 30).tmod 12 = d / nsPerDay / 30 % 12 :=
    Int.tmod_eq_emod hmonths0 (by norm_num)
  refine ⟨?_, ?_, ?_, ?_, ?_, by decide, by decide, by decide, by decide, by decide⟩
  · intro h1
    have hd : d / nsPerDay = 0 := by
      simp only [nsPerDay] at h1 ⊢
      omega
    simp only [formatDuration, e1, e2, e3, e4, hd]
    norm_num
  · intro h1 h2
    have hm : d / nsPerDay / 30 = 0 := by
      simp only [nsPerDay] at h1 h2 ⊢
      omega
    have hpos : 0 < d / nsPerDay := by omega
    simp only [formatDuration, e1, e2, e3, e4, hm]
    norm_num [hpos]
  · intro h1 h2
    have hy : d / nsPerDay / 30 / 12 = 0 := by
      omega
    have hpos : 0 < d / nsPerDay / 30 := by omega
    simp only [formatDuration, e1, e2, e3, e4, hy]
    norm_num [hpos]
  · intro h1 h2
    have hy : 0 < d / nsPerDay / 30 / 12 := by
      omega
    simp only [formatDuration, e1, e2, e3, e4]
    rw [if_pos hy, if_pos h2]
  · intro h1 h2
    have hy : 0 < d / nsPerDay / 30 / 12 := by
      omega
    simp only [formatDuration, e1, e2, e3, e4, h2]
    rw [if_pos hy]
    norm_num

/-- C3 witness: the first two cases evaluated at 0 and at 15 days. -/
theorem formatDuration_spec_witness :
    formatDuration 0 = "<1d" ∧
    formatDuration (15 * nsPerDay) =
      toString ((15 * nsPerDay : Int) / nsPerDay) ++ "d" :=
  ⟨(formatDuration_spec 0 le_rfl).1 (by decide),
   (formatDuration_spec (15 * nsPerDay) (by decide)).2.1 (by decide) (by decide)⟩

lemma tableWidthStep_components (a b c : Nat) (r : displayRow) :
    tableWidthStep (a, b, c) r =
      (max a (releasedWidthOf r), max b (supportWidthOf r),
        max c (eolWidthOf r)) := by
  simp only [tableWidthStep, releasedWidthOf, supportWidthOf, eolWidthOf,
    Prod.mk.injEq]
  refine ⟨?_, ?_, ?_⟩ <;> first
  | trivial
  | (split <;> rfl)

lemma tableWidths_foldl (rows : List displayRow) (a b c : Nat) :
    rows.foldl tableWidthStep (a, b, c) =
      (rows.foldl (fun x r => max x (releasedWidthOf r)) a,
       rows.foldl (fun x r => max x (supportWidthOf r)) b,
       rows.foldl (fun x r => max x (eolWidthOf r)) c) := by
  induction rows generalizing a b c with
  | nil => rfl
  | cons r rest ih =>
    simp only [List.foldl_cons]
    rw [tableWidthStep_components]
    exact ih _ _ _

/-- C9 counterexample: for a single row whose SUPPORT field is a boolean
variant (relative "Active", raw "true"), the computed SUPPORT width is 6 =
len("Active"), not the claimed max of len(relative) + 1 + len(absolute),
whether "absolute" is read as the raw string (6 + 1 + 4 = 11) or as the
suppressed displayed date (6 + 1 + 0 = 7). -/
theorem tableWidths_claim_fails :
    (tableWidths [flagSupportRow]).2.1 = 6 ∧
    (tableWidths [flagSupportRow]).2.1 ≠
      maxOverRows (fun r => r.SupportRel.length + 1 + r.SupportRaw.length)
        [flagSupportRow] ∧
    (tableWidths [flagSupportRow]).2.1 ≠
      maxOverRows (fun r => r.SupportRel.length + 1 + ("" : String).length)
        [flagSupportRow] := by
  refine ⟨by decide, by decide, by decide⟩

/-- C9 amended: the RELEASED width is the maximum over rows of
len(relative) + 1 + len(raw); the SUPPORT and EOL widths take that value
only for rows whose relative part is non-empty and whose raw part is a real
date (non-empty and not a boolean string), and otherwise take just
len(relative); the minimum 1-space gap between the relative and absolute
text of a cell is guaranteed separately by the cell renderer's
max(1, width - relLen - dateLen) padding. -/
theorem tableWidths_amended (rows : List displayRow) (rel : relativeDate)
    (width : Nat) :
    tableWidths rows =
      (maxOverRows releasedWidthOf rows, maxOverRows supportWidthOf rows,
        maxOverRows eolWidthOf rows) ∧
    1 ≤ cellPadding width rel.relative.length rel.date.length ∧
    (rel.date ≠ "" →
      combinedCell rel width = rel.relative ++
        String.mk (List.replicate
          (cellPadding width rel.relative.length rel.date.length).toNat ' ') ++
        rel.date) := by
  refine ⟨tableWidths_foldl rows 0 0 0, le_max_left _ _, ?_⟩
  intro h
  simp [combinedCell, h]

/-- C9 amended witness: a dated cell of width 20 renders with the computed
padding between the relative and absolute parts. -/
theorem tableWidths_amended_witness :
    combinedCell ⟨"3m ago", "2025-10-07"⟩ 20 = "3m ago" ++
      String.mk (List.replicate
        (cellPadding 20 ("3m ago" : String).length
          ("2025-10-07" : String).length).toNat ' ') ++ "2025-10-07" :=
  (tableWidths_amended [] ⟨"3m ago", "2025-10-07"⟩ 20).2.2 (by decide)
